import Mathlib

/-!
# Thread helpers of `src/thread.c`

A shallow embedding of the four functions of `thread.c`
(`createThreadAttribute`, `destroyThreadAttribute`, `createThread`,
`destroyThread`) as state-passing functions over an explicit machine state.

* Memory is block based: a pointer is the number of a block, `NULL` is `0`,
  and every successful `malloc` hands out a block number never used before.
* The C library and the threading facility are an environment `Env` whose
  answers may depend on the whole machine state (and so on the whole history
  of calls) and on the arguments of the call: every combination of outcomes of
  the primitives is some `Env`.
* Every call the code makes to a primitive (`malloc`, `free`, `pthread_*`,
  `printError`) is appended to the chronological `trace` of the state.
-/

namespace CPThread

/-- A C pointer: the number of a memory block, `0` being `NULL`. -/
abbrev Ptr := Nat

/-- The null pointer. -/
def NULL : Ptr := 0

/-- The two object types `thread.c` passes to `sizeof` for `malloc`. -/
inductive CType where
  | pthread_attr_t
  | pthread_t
  deriving DecidableEq

/-- Detach states of `<pthread.h>`. -/
inductive DetachState where
  | PTHREAD_CREATE_JOINABLE
  | PTHREAD_CREATE_DETACHED
  deriving DecidableEq

/-- The call site `printError` receives as `__FILE__`, `__PRETTY_FUNCTION__`:
the function of `thread.c` the call stands in. -/
inductive Site where
  | createThreadAttribute
  | destroyThreadAttribute
  | createThread
  | destroyThread
  deriving DecidableEq

/-- One call to a primitive, with its arguments and what it returned. -/
inductive Event where
  /-- The call `malloc(sizeof(ty))` returned `result`. -/
  | malloc (ty : CType) (result : Ptr)
  /-- The call `free(p)`. -/
  | free (p : Ptr)
  /-- The call `pthread_attr_init(attr)` returned `rc`. -/
  | pthread_attr_init (attr : Ptr) (rc : Int)
  /-- The call `pthread_attr_setdetachstate(attr, state)` returned `rc`. -/
  | pthread_attr_setdetachstate (attr : Ptr) (state : DetachState) (rc : Int)
  /-- The call `pthread_attr_destroy(attr)` returned `rc`. -/
  | pthread_attr_destroy (attr : Ptr) (rc : Int)
  /-- The call `pthread_create(thread, attr, fn, arg)` returned `rc`; `tid` is
  the thread id held in `*thread` when the call returned. -/
  | pthread_create (thread attr fn arg : Ptr) (rc : Int) (tid : Nat)
  /-- The call `pthread_join(tid, NULL)` returned `rc`. -/
  | pthread_join (tid : Nat) (rc : Int)
  /-- The call `printError(code, __FILE__, __PRETTY_FUNCTION__, msg)`. -/
  | printError (code : Int) (site : Site) (msg : Option String)
  deriving DecidableEq

/-- The machine state the functions of `thread.c` act on. -/
structure State where
  /-- Every primitive call made so far, oldest first. -/
  trace : List Event
  /-- Number of the block handed out last. -/
  brk : Nat
  /-- The blocks allocated and not freed. -/
  heap : List Ptr
  /-- The attribute objects initialised and not destroyed (OS-level state). -/
  attrs : List Ptr
  /-- The value of `errno`. -/
  errno : Int
  /-- Contents of the `pthread_t` blocks: block and the thread id it holds. -/
  mem : List (Ptr × Nat)
  /-- The threads started so far: thread id, entry function, argument. -/
  threads : List (Nat × Ptr × Ptr)
  /-- The thread ids joined so far. -/
  joined : List Nat
  deriving DecidableEq

/-- The state before anything has happened. -/
def State.init : State :=
  { trace := [], brk := 0, heap := [], attrs := [], errno := 0, mem := [],
    threads := [], joined := [] }

/-- The environment: what each primitive of the C library and of the threading
facility answers, given the machine state at the call and the arguments. -/
structure Env where
  /-- `none` when the allocation succeeds, `some e` when it fails leaving `e`
  in `errno`. -/
  malloc : State → CType → Option Int
  /-- Return code of `pthread_attr_init`. -/
  pthread_attr_init : State → Ptr → Int
  /-- Return code of `pthread_attr_setdetachstate`. -/
  pthread_attr_setdetachstate : State → Ptr → DetachState → Int
  /-- Return code of `pthread_attr_destroy`. -/
  pthread_attr_destroy : State → Ptr → Int
  /-- Return code of `pthread_create`. -/
  pthread_create : State → Ptr → Ptr → Ptr → Ptr → Int
  /-- Return code of `pthread_join`. -/
  pthread_join : State → Nat → Int

/-- Record one primitive call. -/
def State.log (s : State) (e : Event) : State :=
  { s with trace := s.trace ++ [e] }

/-- The thread id held in the `pthread_t` block `p` (`0` when never written). -/
def State.load (s : State) (p : Ptr) : Nat :=
  match s.mem.find? (fun c => c.1 == p) with
  | some c => c.2
  | none => 0

/-- The events recorded between state `s` and a later state `t`. -/
def eventsSince (s t : State) : List Event :=
  t.trace.drop s.trace.length

/-! ## Primitives -/

/-- Modelled from the spec: `printError` of `logger.h`, which is not among the
sources; the spec describes it as a collaborator that takes an error code, the
call site and an optional message, performs output and returns nothing. -/
def printError (code : Int) (site : Site) (msg : Option String) (s : State) : State :=
  s.log (Event.printError code site msg)

/-- The primitive `malloc(sizeof(ty))`: a fresh block, or `NULL` with `errno`
set. -/
def malloc (env : Env) (ty : CType) (s : State) : Ptr × State :=
  match env.malloc s ty with
  | none =>
    (s.brk + 1,
      { s with brk := s.brk + 1, heap := (s.brk + 1) :: s.heap,
               trace := s.trace ++ [Event.malloc ty (s.brk + 1)] })
  | some e =>
    (NULL, { s with errno := e, trace := s.trace ++ [Event.malloc ty NULL] })

/-- The primitive `free(p)`; `free(NULL)` releases nothing. -/
def free (p : Ptr) (s : State) : State :=
  { s with heap := if p = NULL then s.heap else s.heap.erase p,
           trace := s.trace ++ [Event.free p] }

/-- The primitive `pthread_attr_init(attr)`. -/
def pthread_attr_init (env : Env) (attr : Ptr) (s : State) : Int × State :=
  (env.pthread_attr_init s attr,
    { s with attrs := if env.pthread_attr_init s attr = 0 then attr :: s.attrs else s.attrs,
             trace := s.trace ++ [Event.pthread_attr_init attr (env.pthread_attr_init s attr)] })

/-- The primitive `pthread_attr_setdetachstate(attr, d)`. -/
def pthread_attr_setdetachstate (env : Env) (attr : Ptr) (d : DetachState) (s : State) :
    Int × State :=
  (env.pthread_attr_setdetachstate s attr d,
    s.log (Event.pthread_attr_setdetachstate attr d (env.pthread_attr_setdetachstate s attr d)))

/-- The primitive `pthread_attr_destroy(attr)`: on success the attribute's
OS-level state is gone. -/
def pthread_attr_destroy (env : Env) (attr : Ptr) (s : State) : Int × State :=
  (env.pthread_attr_destroy s attr,
    { s with attrs := if env.pthread_attr_destroy s attr = 0 then s.attrs.erase attr else s.attrs,
             trace := s.trace ++ [Event.pthread_attr_destroy attr (env.pthread_attr_destroy s attr)] })

/-- The primitive `pthread_create(thread, attr, fn, arg)`: on success a thread
with a new id runs `fn(arg)` and the id is stored in `*thread`. -/
def pthread_create (env : Env) (thread attr fn arg : Ptr) (s : State) : Int × State :=
  if env.pthread_create s thread attr fn arg = 0 then
    (0,
      { s with mem := (thread, s.threads.length + 1) :: s.mem,
               threads := s.threads ++ [(s.threads.length + 1, fn, arg)],
               trace := s.trace ++
                 [Event.pthread_create thread attr fn arg 0 (s.threads.length + 1)] })
  else
    (env.pthread_create s thread attr fn arg,
      s.log (Event.pthread_create thread attr fn arg (env.pthread_create s thread attr fn arg)
        (s.load thread)))

/-- The primitive `pthread_join(tid, NULL)`. -/
def pthread_join (env : Env) (tid : Nat) (s : State) : Int × State :=
  (env.pthread_join s tid,
    { s with joined := if env.pthread_join s tid = 0 then s.joined ++ [tid] else s.joined,
             trace := s.trace ++ [Event.pthread_join tid (env.pthread_join s tid)] })

/-- The assignment `errno = rc`. -/
def setErrno (rc : Int) (s : State) : State :=
  { s with errno := rc }

/-! ## The functions of `thread.c` -/

/-- The function `createThreadAttribute()` of `thread.c`; the local `attribute`
is written `attr`, the former being a reserved word here. -/
def createThreadAttribute (env : Env) (s : State) : Ptr × State :=
  let (attr, s) := malloc env CType.pthread_attr_t s
  if NULL = attr then
    let s := printError s.errno Site.createThreadAttribute
      (some "Could not allocate memory for attribute.") s
    (NULL, s)
  else
    let (rc, s) := pthread_attr_init env attr s
    let s := setErrno rc s
    if 0 ≠ s.errno then
      let s := printError s.errno Site.createThreadAttribute
        (some "Could not initialize attribute.") s
      let s := free attr s
      (NULL, s)
    else
      let (rc, s) :=
        pthread_attr_setdetachstate env attr DetachState.PTHREAD_CREATE_JOINABLE s
      let s := setErrno rc s
      if 0 ≠ s.errno then
        let s := printError s.errno Site.createThreadAttribute
          (some "Could not set detatch state.") s
        let s := free attr s
        (NULL, s)
      else
        (attr, s)

/-- The function `destroyThreadAttribute(attribute)` of `thread.c`. -/
def destroyThreadAttribute (env : Env) (attr : Ptr) (s : State) : Int × State :=
  if NULL = attr then
    let s := printError 0 Site.destroyThreadAttribute
      (some "Could not destroy attribute as it is null.") s
    (1, s)
  else
    let (rc, s) := pthread_attr_destroy env attr s
    let s := setErrno rc s
    if 0 ≠ s.errno then
      let s := printError s.errno Site.destroyThreadAttribute
        (some "Could not destroy attribute.") s
      (1, s)
    else
      let s := free attr s
      (0, s)

/-- The function `createThread(function, functionArguments)` of `thread.c`. -/
def createThread (env : Env) (function functionArguments : Ptr) (s : State) : Ptr × State :=
  let (attr, s) := createThreadAttribute env s
  if NULL = attr then
    let s := printError 0 Site.createThread none s
    (NULL, s)
  else
    let (thread, s) := malloc env CType.pthread_t s
    if NULL = thread then
      let s := printError s.errno Site.createThread
        (some "Could not allocate memory for thread.") s
      let (rc, s) := destroyThreadAttribute env attr s
      let s := if 0 ≠ rc then printError 0 Site.createThread none s else s
      let s := free thread s
      (NULL, s)
    else
      let (rc, s) := pthread_create env thread attr function functionArguments s
      let s := setErrno rc s
      if 0 ≠ s.errno then
        let s := printError s.errno Site.createThread (some "Could not create thread.") s
        let (rc, s) := destroyThreadAttribute env attr s
        let s := if 0 ≠ rc then printError 0 Site.createThread none s else s
        let s := free thread s
        (NULL, s)
      else
        let (rc, s) := destroyThreadAttribute env attr s
        if 0 ≠ rc then
          let s := printError 0 Site.createThread none s
          let s := free thread s
          (NULL, s)
        else
          (thread, s)

/-- The function `destroyThread(thread)` of `thread.c`. -/
def destroyThread (env : Env) (thread : Ptr) (s : State) : Int × State :=
  if NULL = thread then
    let s := printError 0 Site.destroyThread
      (some "Could not destroy thread as it is null.") s
    (1, s)
  else
    let (rc, s) := pthread_join env (s.load thread) s
    let s := setErrno rc s
    if 0 ≠ s.errno then
      let s := printError s.errno Site.destroyThread (some "Could not join thread.") s
      (1, s)
    else
      let s := free thread s
      (0, s)

/-! ## Environments used at concrete inputs -/

/-- The environment in which every primitive succeeds. -/
def Env.allOk : Env :=
  { malloc := fun _ _ => none
    pthread_attr_init := fun _ _ => 0
    pthread_attr_setdetachstate := fun _ _ _ => 0
    pthread_attr_destroy := fun _ _ => 0
    pthread_create := fun _ _ _ _ _ => 0
    pthread_join := fun _ _ => 0 }

/-- The environment in which every primitive succeeds except
`pthread_attr_init`, which returns `ENOMEM` (12). -/
def Env.initFails : Env :=
  { Env.allOk with pthread_attr_init := fun _ _ => 12 }

/-- The environment in which every primitive succeeds except
`pthread_attr_setdetachstate`, which returns `EINVAL` (22). -/
def Env.setDetachStateFails : Env :=
  { Env.allOk with pthread_attr_setdetachstate := fun _ _ _ => 22 }

/-- The environment in which every primitive succeeds except
`pthread_attr_destroy`, which returns `EINVAL` (22). -/
def Env.destroyFails : Env :=
  { Env.allOk with pthread_attr_destroy := fun _ _ => 22 }

/-- The environment in which every primitive succeeds except
`pthread_create`, which returns `EAGAIN` (11). -/
def Env.createFails : Env :=
  { Env.allOk with pthread_create := fun _ _ _ _ _ => 11 }

/-- The environment in which every primitive succeeds except `pthread_join`,
which returns `EDEADLK` (35). -/
def Env.joinFails : Env :=
  { Env.allOk with pthread_join := fun _ _ => 35 }

/-! ## Specification vocabulary: predicates on recorded calls -/

/-- A call of `malloc(sizeof(ty))` that returned a block. -/
def Event.isAllocOk (ty : CType) : Event → Bool
  | .malloc ty' p => ty' == ty && p != NULL
  | _ => false

/-- A call of `malloc(sizeof(ty))`, whatever it returned. -/
def Event.isAlloc (ty : CType) : Event → Bool
  | .malloc ty' _ => ty' == ty
  | _ => false

/-- A call of `pthread_attr_init` that returned success. -/
def Event.isInitOk : Event → Bool
  | .pthread_attr_init _ rc => rc == 0
  | _ => false

/-- A call of `pthread_attr_setdetachstate(_, PTHREAD_CREATE_JOINABLE)` that
returned success. -/
def Event.isSetJoinableOk : Event → Bool
  | .pthread_attr_setdetachstate _ d rc => d == DetachState.PTHREAD_CREATE_JOINABLE && rc == 0
  | _ => false

/-- A call of `pthread_attr_setdetachstate` that returned an error. -/
def Event.isSetDetachStateFailure : Event → Bool
  | .pthread_attr_setdetachstate _ _ rc => rc != 0
  | _ => false

/-- A failure while the attribute is being created: its allocation,
`pthread_attr_init` or `pthread_attr_setdetachstate` failed. -/
def Event.isAttributeCreationFailure : Event → Bool
  | .malloc ty p => ty == CType.pthread_attr_t && p == NULL
  | .pthread_attr_init _ rc => rc != 0
  | .pthread_attr_setdetachstate _ _ rc => rc != 0
  | _ => false

/-- A call of `pthread_create`, whatever it returned. -/
def Event.isCreate : Event → Bool
  | .pthread_create _ _ _ _ _ _ => true
  | _ => false

/-- A call of `pthread_create` that returned success. -/
def Event.isCreateOk : Event → Bool
  | .pthread_create _ _ _ _ rc _ => rc == 0
  | _ => false

/-- A call of `pthread_create` that returned an error. -/
def Event.isCreateFailure : Event → Bool
  | .pthread_create _ _ _ _ rc _ => rc != 0
  | _ => false

/-- A call of `pthread_attr_destroy`, whatever it returned. -/
def Event.isDestroy : Event → Bool
  | .pthread_attr_destroy _ _ => true
  | _ => false

/-- A call of `pthread_attr_destroy` on the attribute `a`, whatever it
returned. -/
def Event.isDestroyOf (a : Ptr) : Event → Bool
  | .pthread_attr_destroy a' _ => a' == a
  | _ => false

/-- A call of `pthread_attr_destroy` that returned success. -/
def Event.isDestroyOk : Event → Bool
  | .pthread_attr_destroy _ rc => rc == 0
  | _ => false

/-- A call of `pthread_attr_destroy` that returned an error. -/
def Event.isDestroyFailure : Event → Bool
  | .pthread_attr_destroy _ rc => rc != 0
  | _ => false

/-- A call of `pthread_join`, whatever it returned. -/
def Event.isJoin : Event → Bool
  | .pthread_join _ _ => true
  | _ => false

/-- A call of `pthread_join` that returned an error. -/
def Event.isJoinFailure : Event → Bool
  | .pthread_join _ rc => rc != 0
  | _ => false

/-- A call of `free`, whatever its argument. -/
def Event.isFree : Event → Bool
  | .free _ => true
  | _ => false

/-- A call to the operating system: any `pthread_*` primitive. -/
def Event.isOsCall : Event → Bool
  | .pthread_attr_init _ _ => true
  | .pthread_attr_setdetachstate _ _ _ => true
  | .pthread_attr_destroy _ _ => true
  | .pthread_create _ _ _ _ _ _ => true
  | .pthread_join _ _ => true
  | _ => false

/-- A primitive call that reported failure: `malloc` returning `NULL` or a
`pthread_*` primitive returning a non-zero code. -/
def Event.isFailure : Event → Bool
  | .malloc _ p => p == NULL
  | .pthread_attr_init _ rc => rc != 0
  | .pthread_attr_setdetachstate _ _ rc => rc != 0
  | .pthread_attr_destroy _ rc => rc != 0
  | .pthread_create _ _ _ _ rc _ => rc != 0
  | .pthread_join _ rc => rc != 0
  | _ => false

/-! ## Programs and their recorded calls -/

/-- The calls `createThread(f, arg)` makes when started in state `s`, oldest
first. -/
def createThreadEvents (env : Env) (f arg : Ptr) (s : State) : List Event :=
  eventsSince s (createThread env f arg s).2

/-- The program `destroyThread(createThread(f, arg))`: spawn a thread, then
join it through the handle `createThread` returned. -/
def spawnThenJoin (env : Env) (f arg : Ptr) (s : State) : Int × State :=
  destroyThread env (createThread env f arg s).1 (createThread env f arg s).2

/-! ## The runs of each function -/

/-- The four runs of `createThreadAttribute`: allocation fails, initialisation
fails, setting the detach state fails, or all three succeed; each with the
result and the whole final state. -/
theorem createThreadAttribute_paths (env : Env) (s : State) :
    (∃ e, createThreadAttribute env s =
      (NULL, { s with
        errno := e,
        trace := s.trace ++ [Event.malloc CType.pthread_attr_t NULL,
          Event.printError e Site.createThreadAttribute
            (some "Could not allocate memory for attribute.")] })) ∨
    (∃ rc, rc ≠ 0 ∧ createThreadAttribute env s =
      (NULL, { s with
        brk := s.brk + 1, errno := rc,
        trace := s.trace ++ [Event.malloc CType.pthread_attr_t (s.brk + 1),
          Event.pthread_attr_init (s.brk + 1) rc,
          Event.printError rc Site.createThreadAttribute
            (some "Could not initialize attribute."),
          Event.free (s.brk + 1)] })) ∨
    (∃ rc, rc ≠ 0 ∧ createThreadAttribute env s =
      (NULL, { s with
        brk := s.brk + 1, errno := rc, attrs := (s.brk + 1) :: s.attrs,
        trace := s.trace ++ [Event.malloc CType.pthread_attr_t (s.brk + 1),
          Event.pthread_attr_init (s.brk + 1) 0,
          Event.pthread_attr_setdetachstate (s.brk + 1)
            DetachState.PTHREAD_CREATE_JOINABLE rc,
          Event.printError rc Site.createThreadAttribute
            (some "Could not set detatch state."),
          Event.free (s.brk + 1)] })) ∨
    createThreadAttribute env s =
      (s.brk + 1, { s with
        brk := s.brk + 1, errno := 0, heap := (s.brk + 1) :: s.heap,
        attrs := (s.brk + 1) :: s.attrs,
        trace := s.trace ++ [Event.malloc CType.pthread_attr_t (s.brk + 1),
          Event.pthread_attr_init (s.brk + 1) 0,
          Event.pthread_attr_setdetachstate (s.brk + 1)
            DetachState.PTHREAD_CREATE_JOINABLE 0] }) := by
  unfold createThreadAttribute malloc
  cases h : env.malloc s CType.pthread_attr_t with
  | some e =>
    left
    exact ⟨e, by simp [NULL, printError, State.log]⟩
  | none =>
    right
    simp only [NULL, pthread_attr_init, pthread_attr_setdetachstate, setErrno, printError,
      State.log, free]
    generalize env.pthread_attr_init _ _ = rc1
    by_cases h1 : rc1 = 0
    · right
      subst h1
      generalize env.pthread_attr_setdetachstate _ _ _ = rc2
      by_cases h2 : rc2 = 0
      · right
        subst h2
        simp
      · left
        refine ⟨rc2, h2, ?_⟩
        have h2' : ¬ 0 = rc2 := fun h => h2 h.symm
        simp [h2, h2']
    · left
      refine ⟨rc1, h1, ?_⟩
      have h1' : ¬ 0 = rc1 := fun h => h1 h.symm
      simp [h1, h1']


/-- The two runs of `destroyThreadAttribute` on a non-null attribute: the OS
destroy fails, or it succeeds and the block is freed. -/
theorem destroyThreadAttribute_paths (env : Env) (attr : Ptr) (s : State) (h : attr ≠ NULL) :
    (∃ rc, rc ≠ 0 ∧ destroyThreadAttribute env attr s =
      (1, { s with
        errno := rc,
        trace := s.trace ++ [Event.pthread_attr_destroy attr rc,
          Event.printError rc Site.destroyThreadAttribute
            (some "Could not destroy attribute.")] })) ∨
    destroyThreadAttribute env attr s =
      (0, { s with
        errno := 0, heap := s.heap.erase attr, attrs := s.attrs.erase attr,
        trace := s.trace ++ [Event.pthread_attr_destroy attr 0, Event.free attr] }) := by
  have h' : ¬ NULL = attr := fun e => h e.symm
  unfold destroyThreadAttribute
  simp only [h', if_false, pthread_attr_destroy, setErrno, printError, State.log, free]
  generalize env.pthread_attr_destroy _ _ = rc
  by_cases h1 : rc = 0
  · right
    subst h1
    simp [h]
  · left
    refine ⟨rc, h1, ?_⟩
    have h1' : ¬ 0 = rc := fun e => h1 e.symm
    simp [h1, h1']

/-- The two runs of `destroyThread` on a non-null handle: the join fails, or
it succeeds and the block is freed. -/
theorem destroyThread_paths (env : Env) (thread : Ptr) (s : State) (h : thread ≠ NULL) :
    (∃ rc, rc ≠ 0 ∧ destroyThread env thread s =
      (1, { s with
        errno := rc,
        trace := s.trace ++ [Event.pthread_join (s.load thread) rc,
          Event.printError rc Site.destroyThread (some "Could not join thread.")] })) ∨
    destroyThread env thread s =
      (0, { s with
        errno := 0, heap := s.heap.erase thread, joined := s.joined ++ [s.load thread],
        trace := s.trace ++ [Event.pthread_join (s.load thread) 0, Event.free thread] }) := by
  have h' : ¬ NULL = thread := fun e => h e.symm
  unfold destroyThread
  simp only [h', if_false, pthread_join, setErrno, printError, State.log, free]
  generalize env.pthread_join _ _ = rc
  by_cases h1 : rc = 0
  · right
    subst h1
    simp [h]
  · left
    refine ⟨rc, h1, ?_⟩
    have h1' : ¬ 0 = rc := fun e => h1 e.symm
    simp [h1, h1']


/-- The nine runs of `createThread`, each with the result and the whole final
state; `s.brk + 1` is the attribute block, `s.brk + 2` the handle block and
`s.threads.length + 1` the id of the thread a successful start creates. -/
theorem createThread_paths (env : Env) (f arg : Ptr) (s : State) :
    (∃ e, (createThreadAttribute env s).1 = NULL ∧ createThread env f arg s =
      (NULL, { s with
        errno := e,
        trace := s.trace ++ [Event.malloc CType.pthread_attr_t NULL,
          Event.printError e Site.createThreadAttribute
            (some "Could not allocate memory for attribute."),
          Event.printError 0 Site.createThread none] })) ∨
    (∃ rc, rc ≠ 0 ∧ (createThreadAttribute env s).1 = NULL ∧ createThread env f arg s =
      (NULL, { s with
        brk := s.brk + 1, errno := rc,
        trace := s.trace ++ [Event.malloc CType.pthread_attr_t (s.brk + 1),
          Event.pthread_attr_init (s.brk + 1) rc,
          Event.printError rc Site.createThreadAttribute
            (some "Could not initialize attribute."),
          Event.free (s.brk + 1),
          Event.printError 0 Site.createThread none] })) ∨
    (∃ rc, rc ≠ 0 ∧ (createThreadAttribute env s).1 = NULL ∧ createThread env f arg s =
      (NULL, { s with
        brk := s.brk + 1, errno := rc, attrs := (s.brk + 1) :: s.attrs,
        trace := s.trace ++ [Event.malloc CType.pthread_attr_t (s.brk + 1),
          Event.pthread_attr_init (s.brk + 1) 0,
          Event.pthread_attr_setdetachstate (s.brk + 1)
            DetachState.PTHREAD_CREATE_JOINABLE rc,
          Event.printError rc Site.createThreadAttribute
            (some "Could not set detatch state."),
          Event.free (s.brk + 1),
          Event.printError 0 Site.createThread none] })) ∨
    (∃ e, (createThreadAttribute env s).1 = s.brk + 1 ∧ createThread env f arg s =
      (NULL, { s with
        brk := s.brk + 1, errno := 0,
        trace := s.trace ++ [Event.malloc CType.pthread_attr_t (s.brk + 1),
          Event.pthread_attr_init (s.brk + 1) 0,
          Event.pthread_attr_setdetachstate (s.brk + 1)
            DetachState.PTHREAD_CREATE_JOINABLE 0,
          Event.malloc CType.pthread_t NULL,
          Event.printError e Site.createThread
            (some "Could not allocate memory for thread."),
          Event.pthread_attr_destroy (s.brk + 1) 0,
          Event.free (s.brk + 1),
          Event.free NULL] })) ∨
    (∃ e rc, rc ≠ 0 ∧ (createThreadAttribute env s).1 = s.brk + 1 ∧
      createThread env f arg s =
      (NULL, { s with
        brk := s.brk + 1, errno := rc, heap := (s.brk + 1) :: s.heap,
        attrs := (s.brk + 1) :: s.attrs,
        trace := s.trace ++ [Event.malloc CType.pthread_attr_t (s.brk + 1),
          Event.pthread_attr_init (s.brk + 1) 0,
          Event.pthread_attr_setdetachstate (s.brk + 1)
            DetachState.PTHREAD_CREATE_JOINABLE 0,
          Event.malloc CType.pthread_t NULL,
          Event.printError e Site.createThread
            (some "Could not allocate memory for thread."),
          Event.pthread_attr_destroy (s.brk + 1) rc,
          Event.printError rc Site.destroyThreadAttribute
            (some "Could not destroy attribute."),
          Event.printError 0 Site.createThread none,
          Event.free NULL] })) ∨
    (∃ rc, rc ≠ 0 ∧ (createThreadAttribute env s).1 = s.brk + 1 ∧
      createThread env f arg s =
      (NULL, { s with
        brk := s.brk + 2, errno := 0,
        trace := s.trace ++ [Event.malloc CType.pthread_attr_t (s.brk + 1),
          Event.pthread_attr_init (s.brk + 1) 0,
          Event.pthread_attr_setdetachstate (s.brk + 1)
            DetachState.PTHREAD_CREATE_JOINABLE 0,
          Event.malloc CType.pthread_t (s.brk + 2),
          Event.pthread_create (s.brk + 2) (s.brk + 1) f arg rc (s.load (s.brk + 2)),
          Event.printError rc Site.createThread (some "Could not create thread."),
          Event.pthread_attr_destroy (s.brk + 1) 0,
          Event.free (s.brk + 1),
          Event.free (s.brk + 2)] })) ∨
    (∃ rc rcd, rc ≠ 0 ∧ rcd ≠ 0 ∧ (createThreadAttribute env s).1 = s.brk + 1 ∧
      createThread env f arg s =
      (NULL, { s with
        brk := s.brk + 2, errno := rcd, heap := (s.brk + 1) :: s.heap,
        attrs := (s.brk + 1) :: s.attrs,
        trace := s.trace ++ [Event.malloc CType.pthread_attr_t (s.brk + 1),
          Event.pthread_attr_init (s.brk + 1) 0,
          Event.pthread_attr_setdetachstate (s.brk + 1)
            DetachState.PTHREAD_CREATE_JOINABLE 0,
          Event.malloc CType.pthread_t (s.brk + 2),
          Event.pthread_create (s.brk + 2) (s.brk + 1) f arg rc (s.load (s.brk + 2)),
          Event.printError rc Site.createThread (some "Could not create thread."),
          Event.pthread_attr_destroy (s.brk + 1) rcd,
          Event.printError rcd Site.destroyThreadAttribute
            (some "Could not destroy attribute."),
          Event.printError 0 Site.createThread none,
          Event.free (s.brk + 2)] })) ∨
    (∃ rcd, rcd ≠ 0 ∧ (createThreadAttribute env s).1 = s.brk + 1 ∧
      createThread env f arg s =
      (NULL, { s with
        brk := s.brk + 2, errno := rcd, heap := (s.brk + 1) :: s.heap,
        attrs := (s.brk + 1) :: s.attrs,
        mem := (s.brk + 2, s.threads.length + 1) :: s.mem,
        threads := s.threads ++ [(s.threads.length + 1, f, arg)],
        trace := s.trace ++ [Event.malloc CType.pthread_attr_t (s.brk + 1),
          Event.pthread_attr_init (s.brk + 1) 0,
          Event.pthread_attr_setdetachstate (s.brk + 1)
            DetachState.PTHREAD_CREATE_JOINABLE 0,
          Event.malloc CType.pthread_t (s.brk + 2),
          Event.pthread_create (s.brk + 2) (s.brk + 1) f arg 0 (s.threads.length + 1),
          Event.pthread_attr_destroy (s.brk + 1) rcd,
          Event.printError rcd Site.destroyThreadAttribute
            (some "Could not destroy attribute."),
          Event.printError 0 Site.createThread none,
          Event.free (s.brk + 2)] })) ∨
    ((createThreadAttribute env s).1 = s.brk + 1 ∧ createThread env f arg s =
      (s.brk + 2, { s with
        brk := s.brk + 2, errno := 0, heap := (s.brk + 2) :: s.heap,
        mem := (s.brk + 2, s.threads.length + 1) :: s.mem,
        threads := s.threads ++ [(s.threads.length + 1, f, arg)],
        trace := s.trace ++ [Event.malloc CType.pthread_attr_t (s.brk + 1),
          Event.pthread_attr_init (s.brk + 1) 0,
          Event.pthread_attr_setdetachstate (s.brk + 1)
            DetachState.PTHREAD_CREATE_JOINABLE 0,
          Event.malloc CType.pthread_t (s.brk + 2),
          Event.pthread_create (s.brk + 2) (s.brk + 1) f arg 0 (s.threads.length + 1),
          Event.pthread_attr_destroy (s.brk + 1) 0,
          Event.free (s.brk + 1)] })) := by
  unfold createThread
  rcases createThreadAttribute_paths env s with ⟨e, h⟩ | ⟨rc, hrc, h⟩ | ⟨rc, hrc, h⟩ | h
  · left
    exact ⟨e, by rw [h], by rw [h]; simp [NULL, printError, State.log]⟩
  · right; left
    exact ⟨rc, hrc, by rw [h], by rw [h]; simp [NULL, printError, State.log]⟩
  · right; right; left
    exact ⟨rc, hrc, by rw [h], by rw [h]; simp [NULL, printError, State.log]⟩
  · right; right; right
    rw [h]
    have hne : ¬ (0 : Nat) = s.brk + 1 := by omega
    simp only [NULL, hne, if_false, malloc]
    generalize env.malloc _ CType.pthread_t = m
    cases m with
    | some e =>
      simp only [NULL, if_true, printError, State.log, destroyThreadAttribute, hne, if_false,
        pthread_attr_destroy, setErrno, free]
      generalize env.pthread_attr_destroy _ _ = rcd
      by_cases hd : rcd = 0
      · left
        subst hd
        exact ⟨e, trivial, by simp⟩
      · right; left
        have hd' : ¬ 0 = rcd := fun e => hd e.symm
        exact ⟨e, rcd, hd, trivial, by simp [hd, hd']⟩
    | none =>
      right; right
      have hne2 : ¬ (0 : Nat) = s.brk + 1 + 1 := by omega
      simp only [NULL, hne2, if_false, pthread_create]
      generalize env.pthread_create _ _ _ _ _ = rc
      by_cases hc : rc = 0
      · right; right
        subst hc
        simp only [if_true, setErrno, ne_eq, not_true_eq_false, if_false, destroyThreadAttribute,
          NULL, hne, pthread_attr_destroy]
        generalize env.pthread_attr_destroy _ _ = rcd
        by_cases hd : rcd = 0
        · right
          subst hd
          exact ⟨trivial, by simp [setErrno, printError, State.log, free, NULL]⟩
        · left
          have hd' : ¬ 0 = rcd := fun e => hd e.symm
          exact ⟨rcd, hd, trivial, by simp [hd, hd', setErrno, printError, State.log, free, NULL]⟩
      · have hc' : ¬ 0 = rc := fun e => hc e.symm
        simp only [hc, hc', if_false, setErrno, ne_eq, not_false_eq_true, if_true, printError,
          State.log, destroyThreadAttribute, NULL, hne, pthread_attr_destroy]
        generalize env.pthread_attr_destroy _ _ = rcd
        by_cases hd : rcd = 0
        · left
          subst hd
          exact ⟨rc, hc, trivial, by simp [hc, hc', State.load, setErrno, printError, State.log, free, NULL]⟩
        · right; left
          have hd' : ¬ 0 = rcd := fun e => hd e.symm
          exact ⟨rc, rcd, hc, hd, trivial, by
            simp [hc, hc', hd, hd', State.load, setErrno, printError, State.log, free, NULL]⟩


/-! ## Two facts about splitting a list of calls -/

/-- An element of the longest prefix satisfying `p` lies before any element
that fails `p`. -/
theorem mem_prefix_of_mem_takeWhile {α : Type} (p : α → Bool) (c x : α) (post : List α)
    (hc : p c = false) :
    ∀ pre : List α, x ∈ (pre ++ c :: post).takeWhile p → x ∈ pre := by
  intro pre
  induction pre with
  | nil => simp [List.takeWhile, hc]
  | cons y ys ih =>
    intro hx
    by_cases hy : p y = true
    · simp only [List.cons_append, List.takeWhile_cons, hy, if_true, List.mem_cons] at hx
      rcases hx with rfl | hx
      · exact List.mem_cons_self _ _
      · exact List.mem_cons_of_mem _ (ih hx)
    · simp [List.takeWhile_cons, hy] at hx

/-- Nothing satisfying `q` follows an element satisfying `p` when nothing
satisfying `q` occurs from the first element satisfying `p` on. -/
theorem any_after_of_any_dropWhile {α : Type} (p q : α → Bool) (c : α) (post : List α)
    (hc : p c = true) :
    ∀ pre : List α, ((pre ++ c :: post).dropWhile (fun e => !p e)).any q = false →
      post.any q = false := by
  intro pre
  induction pre with
  | nil =>
    intro h
    simp [List.dropWhile, hc] at h
    simpa using h.2
  | cons y ys ih =>
    intro h
    by_cases hy : p y = true
    · simp [List.dropWhile_cons, hy] at h
      simpa using fun x hx => h.2.2.2 x hx
    · simp only [List.cons_append, List.dropWhile_cons, hy, Bool.not_false, if_true] at h
      exact ih h

/-! ## The claims -/

/-- Claim C1. For every entry function, argument, start state and environment,
`createThread` returns a non-NULL handle exactly when, among the calls it made,
the attribute allocation, `pthread_attr_init`, `pthread_attr_setdetachstate`
to joinable, the handle allocation, `pthread_create` and `pthread_attr_destroy`
each succeeded; otherwise it returns NULL. A returned handle is the block
`malloc(sizeof(pthread_t))` handed out, it is the block passed to
`pthread_create` with the caller's function and argument, no `free` was called
on it, and it is still allocated in the final state. -/
theorem createThread_returns_handle_iff (env : Env) (f arg : Ptr) (s : State) :
    ((createThread env f arg s).1 ≠ NULL ↔
      ((createThreadEvents env f arg s).any (Event.isAllocOk CType.pthread_attr_t) = true ∧
       (createThreadEvents env f arg s).any Event.isInitOk = true ∧
       (createThreadEvents env f arg s).any Event.isSetJoinableOk = true ∧
       (createThreadEvents env f arg s).any (Event.isAllocOk CType.pthread_t) = true ∧
       (createThreadEvents env f arg s).any Event.isCreateOk = true ∧
       (createThreadEvents env f arg s).any Event.isDestroyOk = true)) ∧
    ((createThread env f arg s).1 ≠ NULL →
      Event.malloc CType.pthread_t (createThread env f arg s).1 ∈
        createThreadEvents env f arg s ∧
      (∃ a tid, Event.pthread_create (createThread env f arg s).1 a f arg 0 tid ∈
        createThreadEvents env f arg s) ∧
      Event.free (createThread env f arg s).1 ∉ createThreadEvents env f arg s ∧
      (createThread env f arg s).1 ∈ (createThread env f arg s).2.heap) := by
  rcases createThread_paths env f arg s with ⟨e, -, h⟩ | ⟨rc, hrc, -, h⟩ | ⟨rc, hrc, -, h⟩ |
    ⟨e, -, h⟩ | ⟨e, rc, hrc, -, h⟩ | ⟨rc, hrc, -, h⟩ | ⟨rc, rcd, hrc, hrcd, -, h⟩ |
    ⟨rcd, hrcd, -, h⟩ | ⟨-, h⟩ <;>
  simp [createThreadEvents, eventsSince, h, NULL, Event.isAllocOk, Event.isInitOk,
    Event.isSetJoinableOk, Event.isCreateOk, Event.isDestroyOk, *]

/-- Claim C1 at a concrete input: with every primitive succeeding,
`createThread(7, 9)` from the initial state returns block 2, which was
allocated, passed to `pthread_create`, never freed and is still live. -/
theorem createThread_returns_handle_iff_witness :
    (createThread Env.allOk 7 9 State.init).1 ≠ NULL ∧
    Event.malloc CType.pthread_t 2 ∈ createThreadEvents Env.allOk 7 9 State.init ∧
    Event.free 2 ∉ createThreadEvents Env.allOk 7 9 State.init ∧
    2 ∈ (createThread Env.allOk 7 9 State.init).2.heap :=
  ⟨by decide,
   ((createThread_returns_handle_iff Env.allOk 7 9 State.init).2 (by decide)).1,
   ((createThread_returns_handle_iff Env.allOk 7 9 State.init).2 (by decide)).2.2.1,
   ((createThread_returns_handle_iff Env.allOk 7 9 State.init).2 (by decide)).2.2.2⟩

/-- Claim C2. When no primitive call made by `createThread(f, arg)` followed
by `destroyThread` on the returned handle reports a failure, the calls made
are exactly: allocate and configure the attribute, allocate the handle, one
`pthread_create` on the handle with the caller's `f` and `arg`, destroy and
free the attribute, one `pthread_join` on the id of the thread that
`pthread_create` started, and then one `free` of the handle. `destroyThread`
returns 0, one thread running `f(arg)` was started and that thread was
joined, and the heap and the set of live attributes are as before. -/
theorem spawnThenJoin_all_succeed (env : Env) (f arg : Ptr) (s : State)
    (hok : (eventsSince s (spawnThenJoin env f arg s).2).any Event.isFailure = false) :
    eventsSince s (spawnThenJoin env f arg s).2 =
      [Event.malloc CType.pthread_attr_t (s.brk + 1),
       Event.pthread_attr_init (s.brk + 1) 0,
       Event.pthread_attr_setdetachstate (s.brk + 1) DetachState.PTHREAD_CREATE_JOINABLE 0,
       Event.malloc CType.pthread_t (s.brk + 2),
       Event.pthread_create (s.brk + 2) (s.brk + 1) f arg 0 (s.threads.length + 1),
       Event.pthread_attr_destroy (s.brk + 1) 0,
       Event.free (s.brk + 1),
       Event.pthread_join (s.threads.length + 1) 0,
       Event.free (s.brk + 2)] ∧
    (spawnThenJoin env f arg s).1 = 0 ∧
    (createThread env f arg s).1 = s.brk + 2 ∧
    (spawnThenJoin env f arg s).2.threads = s.threads ++ [(s.threads.length + 1, f, arg)] ∧
    (spawnThenJoin env f arg s).2.joined = s.joined ++ [s.threads.length + 1] ∧
    (spawnThenJoin env f arg s).2.heap = s.heap ∧
    (spawnThenJoin env f arg s).2.attrs = s.attrs := by
  unfold spawnThenJoin at hok ⊢
  have hj := destroyThread_paths env (createThread env f arg s).1 (createThread env f arg s).2
  rcases createThread_paths env f arg s with ⟨e, -, h⟩ | ⟨rc, hrc, -, h⟩ | ⟨rc, hrc, -, h⟩ |
    ⟨e, -, h⟩ | ⟨e, rc, hrc, -, h⟩ | ⟨rc, hrc, -, h⟩ | ⟨rc, rcd, hrc, hrcd, -, h⟩ |
    ⟨rcd, hrcd, -, h⟩ | ⟨-, h⟩
  case inr.inr.inr.inr.inr.inr.inr.inr =>
    rw [h] at hj hok ⊢
    simp only [] at hj hok ⊢
    rcases hj (by simp [NULL]) with ⟨rc, hrc, hj⟩ | hj
    · rw [hj] at hok
      simp [eventsSince, Event.isFailure, hrc] at hok
    · rw [hj]
      simp [eventsSince, State.load]
  all_goals
    rw [h] at hok
    simp [destroyThread, NULL, printError, State.log, eventsSince, Event.isFailure, *] at hok

/-- Claim C2 at a concrete input: with every primitive succeeding,
`destroyThread(createThread(7, 9))` from the initial state. -/
theorem spawnThenJoin_all_succeed_witness :
    (eventsSince State.init (spawnThenJoin Env.allOk 7 9 State.init).2).any
      Event.isFailure = false ∧
    eventsSince State.init (spawnThenJoin Env.allOk 7 9 State.init).2 =
      [Event.malloc CType.pthread_attr_t 1,
       Event.pthread_attr_init 1 0,
       Event.pthread_attr_setdetachstate 1 DetachState.PTHREAD_CREATE_JOINABLE 0,
       Event.malloc CType.pthread_t 2,
       Event.pthread_create 2 1 7 9 0 1,
       Event.pthread_attr_destroy 1 0,
       Event.free 1,
       Event.pthread_join 1 0,
       Event.free 2] ∧
    (spawnThenJoin Env.allOk 7 9 State.init).1 = 0 :=
  ⟨by decide, (spawnThenJoin_all_succeed Env.allOk 7 9 State.init (by decide)).1,
    (spawnThenJoin_all_succeed Env.allOk 7 9 State.init (by decide)).2.1⟩

/-- Claim C3. If the attribute allocation, `pthread_attr_init` or
`pthread_attr_setdetachstate` fails, `createThread` returns NULL and has made
no `malloc(sizeof(pthread_t))` call and no `pthread_create` call. And however
the calls `createThread` made are split at a `pthread_create` call, the calls
before it contain a `pthread_attr_init` and a
`pthread_attr_setdetachstate(_, PTHREAD_CREATE_JOINABLE)` on the attribute
that `pthread_create` was passed, both returning 0. -/
theorem createThread_attribute_first (env : Env) (f arg : Ptr) (s : State) :
    ((createThreadEvents env f arg s).any Event.isAttributeCreationFailure = true →
      (createThread env f arg s).1 = NULL ∧
      (createThreadEvents env f arg s).any (Event.isAlloc CType.pthread_t) = false ∧
      (createThreadEvents env f arg s).any Event.isCreate = false) ∧
    (∀ (t a fn ar : Ptr) (rc : Int) (tid : Nat) (pre post : List Event),
      createThreadEvents env f arg s = pre ++ Event.pthread_create t a fn ar rc tid :: post →
      Event.pthread_attr_init a 0 ∈ pre ∧
      Event.pthread_attr_setdetachstate a DetachState.PTHREAD_CREATE_JOINABLE 0 ∈ pre) := by
  refine ⟨?_, ?_⟩
  · rcases createThread_paths env f arg s with ⟨e, -, h⟩ | ⟨rc, hrc, -, h⟩ | ⟨rc, hrc, -, h⟩ |
    ⟨e, -, h⟩ | ⟨e, rc, hrc, -, h⟩ | ⟨rc, hrc, -, h⟩ | ⟨rc, rcd, hrc, hrcd, -, h⟩ |
    ⟨rcd, hrcd, -, h⟩ | ⟨-, h⟩ <;>
    simp [createThreadEvents, eventsSince, h, NULL, Event.isAttributeCreationFailure,
      Event.isAlloc, Event.isCreate]
  · intro t a fn ar rc tid pre post hsplit
    have hmem : Event.pthread_create t a fn ar rc tid ∈ createThreadEvents env f arg s := by
      rw [hsplit]; simp
    have hpre : ∀ x, x ∈ (createThreadEvents env f arg s).takeWhile (fun e => !e.isCreate) →
        x ∈ pre := by
      intro x hx
      rw [hsplit] at hx
      exact mem_prefix_of_mem_takeWhile _ _ x post (by simp [Event.isCreate]) pre hx
    rcases createThread_paths env f arg s with ⟨e, -, h⟩ | ⟨rc, hrc, -, h⟩ | ⟨rc, hrc, -, h⟩ |
    ⟨e, -, h⟩ | ⟨e, rc, hrc, -, h⟩ | ⟨rc, hrc, -, h⟩ | ⟨rc, rcd, hrc, hrcd, -, h⟩ |
    ⟨rcd, hrcd, -, h⟩ | ⟨-, h⟩ <;>
    simp [createThreadEvents, eventsSince, h] at hmem hpre <;>
    · obtain ⟨-, rfl, -⟩ := hmem
      exact ⟨hpre _ (by simp [List.takeWhile, Event.isCreate]),
        hpre _ (by simp [List.takeWhile, Event.isCreate])⟩

/-- Claim C3 at a concrete input: with `pthread_attr_init` failing,
`createThread(7, 9)` from the initial state returns NULL without allocating a
handle or calling `pthread_create`. -/
theorem createThread_attribute_first_witness :
    (createThreadEvents Env.initFails 7 9 State.init).any
      Event.isAttributeCreationFailure = true ∧
    (createThread Env.initFails 7 9 State.init).1 = NULL ∧
    (createThreadEvents Env.initFails 7 9 State.init).any (Event.isAlloc CType.pthread_t) =
      false ∧
    (createThreadEvents Env.initFails 7 9 State.init).any Event.isCreate = false :=
  ⟨by decide, (createThread_attribute_first Env.initFails 7 9 State.init).1 (by decide)⟩

/-- Claim C4, as the code has it. When `pthread_join` fails for a non-NULL
handle, `destroyThread` returns 1 and makes no call to `free` at all: the
handle block is not released and the heap is what it was. (The claim says the
block is still freed.) -/
theorem destroyThread_join_failure (env : Env) (thread : Ptr) (s : State)
    (hthread : thread ≠ NULL)
    (hfail : (eventsSince s (destroyThread env thread s).2).any Event.isJoinFailure = true) :
    (destroyThread env thread s).1 = 1 ∧
    (eventsSince s (destroyThread env thread s).2).count (Event.free thread) = 0 ∧
    (eventsSince s (destroyThread env thread s).2).any Event.isFree = false ∧
    (destroyThread env thread s).2.heap = s.heap := by
  rcases destroyThread_paths env thread s hthread with ⟨rc, hrc, h⟩ | h
  · simp [h, eventsSince, Event.isFree, List.count, List.countP_cons]
  · simp [h, eventsSince, Event.isJoinFailure] at hfail

/-- Claim C4 at the failing input: the handle 2 returned by `createThread(7, 9)`
is passed to `destroyThread` while `pthread_join` returns `EDEADLK`; the
result is 1, `free(2)` is never called and block 2 stays allocated. -/
theorem destroyThread_join_failure_witness :
    (createThread Env.joinFails 7 9 State.init).1 = 2 ∧
    (destroyThread Env.joinFails 2 (createThread Env.joinFails 7 9 State.init).2).1 = 1 ∧
    (eventsSince (createThread Env.joinFails 7 9 State.init).2
      (destroyThread Env.joinFails 2 (createThread Env.joinFails 7 9 State.init).2).2).count
        (Event.free 2) = 0 ∧
    (destroyThread Env.joinFails 2 (createThread Env.joinFails 7 9 State.init).2).2.heap = [2] :=
  ⟨by decide,
   (destroyThread_join_failure Env.joinFails 2 (createThread Env.joinFails 7 9 State.init).2
      (by decide) (by decide)).1,
   (destroyThread_join_failure Env.joinFails 2 (createThread Env.joinFails 7 9 State.init).2
      (by decide) (by decide)).2.1,
   (destroyThread_join_failure Env.joinFails 2 (createThread Env.joinFails 7 9 State.init).2
      (by decide) (by decide)).2.2.2⟩

/-- Claim C5, as the code has it. When `pthread_attr_destroy` fails for a
non-NULL attribute, `destroyThreadAttribute` returns 1 and makes no call to
`free` at all: the attribute block is not released and the heap is what it
was. (The claim says the block is still freed.) -/
theorem destroyThreadAttribute_destroy_failure (env : Env) (attr : Ptr) (s : State)
    (hattr : attr ≠ NULL)
    (hfail : (eventsSince s (destroyThreadAttribute env attr s).2).any
      Event.isDestroyFailure = true) :
    (destroyThreadAttribute env attr s).1 = 1 ∧
    (eventsSince s (destroyThreadAttribute env attr s).2).count (Event.free attr) = 0 ∧
    (eventsSince s (destroyThreadAttribute env attr s).2).any Event.isFree = false ∧
    (destroyThreadAttribute env attr s).2.heap = s.heap := by
  rcases destroyThreadAttribute_paths env attr s hattr with ⟨rc, hrc, h⟩ | h
  · simp [h, eventsSince, Event.isFree, List.count, List.countP_cons]
  · simp [h, eventsSince, Event.isDestroyFailure] at hfail

/-- Claim C5 at the failing input: the attribute 1 returned by
`createThreadAttribute()` is passed to `destroyThreadAttribute` while
`pthread_attr_destroy` returns `EINVAL`; the result is 1, `free(1)` is never
called and block 1 stays allocated. -/
theorem destroyThreadAttribute_destroy_failure_witness :
    (createThreadAttribute Env.destroyFails State.init).1 = 1 ∧
    (destroyThreadAttribute Env.destroyFails 1
      (createThreadAttribute Env.destroyFails State.init).2).1 = 1 ∧
    (eventsSince (createThreadAttribute Env.destroyFails State.init).2
      (destroyThreadAttribute Env.destroyFails 1
        (createThreadAttribute Env.destroyFails State.init).2).2).count (Event.free 1) = 0 ∧
    (destroyThreadAttribute Env.destroyFails 1
      (createThreadAttribute Env.destroyFails State.init).2).2.heap = [1] :=
  ⟨by decide,
   (destroyThreadAttribute_destroy_failure Env.destroyFails 1
      (createThreadAttribute Env.destroyFails State.init).2 (by decide) (by decide)).1,
   (destroyThreadAttribute_destroy_failure Env.destroyFails 1
      (createThreadAttribute Env.destroyFails State.init).2 (by decide) (by decide)).2.1,
   (destroyThreadAttribute_destroy_failure Env.destroyFails 1
      (createThreadAttribute Env.destroyFails State.init).2 (by decide) (by decide)).2.2.2⟩

/-- Claim C6. If the `pthread_create` call fails, `createThread` returns NULL
whether or not the attribute destruction succeeds; it has allocated the
attribute block `s.brk + 1` and the handle block `s.brk + 2`, has called
`pthread_attr_destroy` exactly once, on that attribute, and has freed the
handle block exactly once, as its last call. When that `pthread_attr_destroy`
call succeeds the attribute block is freed exactly once, and the set of live
attributes and the heap are what they were before the call. -/
theorem createThread_start_failure (env : Env) (f arg : Ptr) (s : State)
    (hfail : (createThreadEvents env f arg s).any Event.isCreateFailure = true) :
    (createThread env f arg s).1 = NULL ∧
    Event.malloc CType.pthread_attr_t (s.brk + 1) ∈ createThreadEvents env f arg s ∧
    Event.malloc CType.pthread_t (s.brk + 2) ∈ createThreadEvents env f arg s ∧
    (createThreadEvents env f arg s).countP Event.isDestroy = 1 ∧
    (createThreadEvents env f arg s).countP (Event.isDestroyOf (s.brk + 1)) = 1 ∧
    (createThreadEvents env f arg s).count (Event.free (s.brk + 2)) = 1 ∧
    (createThreadEvents env f arg s).getLast? = some (Event.free (s.brk + 2)) ∧
    ((createThreadEvents env f arg s).any Event.isDestroyOk = true →
      (createThreadEvents env f arg s).count (Event.free (s.brk + 1)) = 1 ∧
      (createThread env f arg s).2.attrs = s.attrs ∧
      (createThread env f arg s).2.heap = s.heap) := by
  rcases createThread_paths env f arg s with ⟨e, -, h⟩ | ⟨rc, hrc, -, h⟩ | ⟨rc, hrc, -, h⟩ |
    ⟨e, -, h⟩ | ⟨e, rc, hrc, -, h⟩ | ⟨rc, hrc, -, h⟩ | ⟨rc, rcd, hrc, hrcd, -, h⟩ |
    ⟨rcd, hrcd, -, h⟩ | ⟨-, h⟩ <;>
  first
  | (simp [createThreadEvents, eventsSince, h, Event.isCreateFailure] at hfail; done)
  | (clear hfail
     simp [createThreadEvents, eventsSince, h, NULL, Event.isDestroy, Event.isDestroyOf,
       Event.isDestroyOk, List.count, List.countP_cons, *])

/-- Claim C6 at a concrete input: with `pthread_create` returning `EAGAIN`,
`createThread(7, 9)` from the initial state. -/
theorem createThread_start_failure_witness :
    (createThreadEvents Env.createFails 7 9 State.init).any Event.isCreateFailure = true ∧
    (createThread Env.createFails 7 9 State.init).1 = NULL ∧
    (createThreadEvents Env.createFails 7 9 State.init).countP (Event.isDestroyOf 1) = 1 ∧
    (createThreadEvents Env.createFails 7 9 State.init).count (Event.free 2) = 1 ∧
    (createThread Env.createFails 7 9 State.init).2.heap = [] :=
  ⟨by decide,
   (createThread_start_failure Env.createFails 7 9 State.init (by decide)).1,
   (createThread_start_failure Env.createFails 7 9 State.init (by decide)).2.2.2.2.1,
   (createThread_start_failure Env.createFails 7 9 State.init (by decide)).2.2.2.2.2.1,
   ((createThread_start_failure Env.createFails 7 9 State.init (by decide)).2.2.2.2.2.2.2
      (by decide)).2.2⟩

/-- Claim C7, as the code has it. When `pthread_attr_setdetachstate` fails,
`createThreadAttribute` returns NULL and frees the attribute block exactly
once, but it never calls `pthread_attr_destroy`: the attribute that
`pthread_attr_init` initialised is still among the live attributes when the
function returns. (The claim says its OS-level state is destroyed before the
memory is freed.) -/
theorem createThreadAttribute_setdetachstate_failure (env : Env) (s : State)
    (hfail : (eventsSince s (createThreadAttribute env s).2).any
      Event.isSetDetachStateFailure = true) :
    (createThreadAttribute env s).1 = NULL ∧
    (eventsSince s (createThreadAttribute env s).2).any Event.isDestroy = false ∧
    (createThreadAttribute env s).2.attrs = (s.brk + 1) :: s.attrs ∧
    (eventsSince s (createThreadAttribute env s).2).count (Event.free (s.brk + 1)) = 1 ∧
    (createThreadAttribute env s).2.heap = s.heap := by
  rcases createThreadAttribute_paths env s with ⟨e, h⟩ | ⟨rc, hrc, h⟩ | ⟨rc, hrc, h⟩ | h <;>
  first
  | (simp [eventsSince, h, Event.isSetDetachStateFailure] at hfail; done)
  | simp [eventsSince, h, Event.isDestroy, List.count, List.countP_cons]

/-- Claim C7 at the failing input: `createThreadAttribute()` from the initial
state while `pthread_attr_setdetachstate` returns `EINVAL`; the result is
NULL, `pthread_attr_destroy` is never called, attribute 1 is still
initialised and its block has been freed. -/
theorem createThreadAttribute_setdetachstate_failure_witness :
    (eventsSince State.init (createThreadAttribute Env.setDetachStateFails State.init).2).any
      Event.isSetDetachStateFailure = true ∧
    (createThreadAttribute Env.setDetachStateFails State.init).1 = NULL ∧
    (eventsSince State.init (createThreadAttribute Env.setDetachStateFails State.init).2).any
      Event.isDestroy = false ∧
    (createThreadAttribute Env.setDetachStateFails State.init).2.attrs = [1] ∧
    (createThreadAttribute Env.setDetachStateFails State.init).2.heap = [] :=
  ⟨by decide,
   (createThreadAttribute_setdetachstate_failure Env.setDetachStateFails State.init
      (by decide)).1,
   (createThreadAttribute_setdetachstate_failure Env.setDetachStateFails State.init
      (by decide)).2.1,
   (createThreadAttribute_setdetachstate_failure Env.setDetachStateFails State.init
      (by decide)).2.2.1,
   (createThreadAttribute_setdetachstate_failure Env.setDetachStateFails State.init
      (by decide)).2.2.2.2⟩

/-- Claim C8 as stated fails: with every primitive succeeding except
`pthread_attr_destroy`, `createThread(7, 9)` from the initial state creates
attribute 1, calls `pthread_attr_destroy` on it exactly once and returns, yet
attribute 1 is still initialised when it returns, so it is not the case that
the attribute's OS resources have been released and its memory freed. -/
theorem createThread_attribute_outlives_counterexample :
    (createThreadAttribute Env.destroyFails State.init).1 = 1 ∧
    (createThreadEvents Env.destroyFails 7 9 State.init).countP (Event.isDestroyOf 1) = 1 ∧
    (createThread Env.destroyFails 7 9 State.init).1 = NULL ∧
    1 ∈ (createThread Env.destroyFails 7 9 State.init).2.attrs ∧
    ¬ (1 ∉ (createThread Env.destroyFails 7 9 State.init).2.attrs ∧
       1 ∉ (createThread Env.destroyFails 7 9 State.init).2.heap) := by
  decide

/-- Claim C8, amended. On every run of `createThread` on which attribute
creation succeeded, the attribute is the block `s.brk + 1`,
`pthread_attr_destroy` is called on it exactly once, and however the calls
are split at that call, no `pthread_create` call follows it. When the
`pthread_attr_destroy` call succeeds, the attribute block is freed exactly
once, the set of live attributes is what it was before the call, and the only
block the call leaves allocated is the handle it returns. -/
theorem createThread_attribute_destroyed_once (env : Env) (f arg : Ptr) (s : State)
    (hattr : (createThreadAttribute env s).1 ≠ NULL) :
    (createThreadAttribute env s).1 = s.brk + 1 ∧
    (createThreadEvents env f arg s).countP (Event.isDestroyOf (s.brk + 1)) = 1 ∧
    (∀ (pre post : List Event) (rc : Int),
      createThreadEvents env f arg s =
        pre ++ Event.pthread_attr_destroy (s.brk + 1) rc :: post →
      post.any Event.isCreate = false) ∧
    ((createThreadEvents env f arg s).any Event.isDestroyOk = true →
      (createThreadEvents env f arg s).count (Event.free (s.brk + 1)) = 1 ∧
      (createThread env f arg s).2.attrs = s.attrs ∧
      (createThread env f arg s).2.heap =
        if (createThread env f arg s).1 = NULL then s.heap
        else (createThread env f arg s).1 :: s.heap) := by
  have hpost : ((createThreadEvents env f arg s).dropWhile
        (fun e => !Event.isDestroyOf (s.brk + 1) e)).any Event.isCreate = false →
      ∀ (pre post : List Event) (rc : Int),
      createThreadEvents env f arg s =
        pre ++ Event.pthread_attr_destroy (s.brk + 1) rc :: post →
      post.any Event.isCreate = false := by
    intro h pre post rc hsplit
    rw [hsplit] at h
    exact any_after_of_any_dropWhile _ _ _ post (by simp [Event.isDestroyOf]) pre h
  rcases createThread_paths env f arg s with ⟨e, ha, h⟩ | ⟨rc, hrc, ha, h⟩ | ⟨rc, hrc, ha, h⟩ |
    ⟨e, ha, h⟩ | ⟨e, rc, hrc, ha, h⟩ | ⟨rc, hrc, ha, h⟩ | ⟨rc, rcd, hrc, hrcd, ha, h⟩ |
    ⟨rcd, hrcd, ha, h⟩ | ⟨ha, h⟩
  · exact absurd ha hattr
  · exact absurd ha hattr
  · exact absurd ha hattr
  all_goals
    refine ⟨ha, ?_, hpost ?_, ?_⟩ <;>
    simp [createThreadEvents, eventsSince, h, NULL, Event.isCreate, Event.isDestroyOf,
      Event.isDestroyOk, List.count, List.countP_cons, List.dropWhile, *]

/-- Claim C8, amended, at a concrete input: with every primitive succeeding,
`createThread(7, 9)` from the initial state destroys attribute 1 once, frees
it once, and leaves only the returned handle 2 allocated. -/
theorem createThread_attribute_destroyed_once_witness :
    (createThreadAttribute Env.allOk State.init).1 ≠ NULL ∧
    (createThreadEvents Env.allOk 7 9 State.init).countP (Event.isDestroyOf 1) = 1 ∧
    (createThreadEvents Env.allOk 7 9 State.init).count (Event.free 1) = 1 ∧
    (createThread Env.allOk 7 9 State.init).2.attrs = [] ∧
    (createThread Env.allOk 7 9 State.init).2.heap = [2] :=
  ⟨by decide,
   (createThread_attribute_destroyed_once Env.allOk 7 9 State.init (by decide)).2.1,
   ((createThread_attribute_destroyed_once Env.allOk 7 9 State.init (by decide)).2.2.2
      (by decide)).1,
   ((createThread_attribute_destroyed_once Env.allOk 7 9 State.init (by decide)).2.2.2
      (by decide)).2.1,
   ((createThread_attribute_destroyed_once Env.allOk 7 9 State.init (by decide)).2.2.2
      (by decide)).2.2⟩

/-- Claim C9. In every state and environment `destroyThread(NULL)` and
`destroyThreadAttribute(NULL)` return 1 and leave the state as it was except
for one recorded call, `printError` with error code 0: they make no call to
the operating system (no `pthread_join`, no `pthread_attr_destroy`) and no
call to `free`. -/
theorem destroy_null_argument (env : Env) (s : State) :
    destroyThread env NULL s =
      (1, { s with trace := s.trace ++ [Event.printError 0 Site.destroyThread
              (some "Could not destroy thread as it is null.")] }) ∧
    destroyThreadAttribute env NULL s =
      (1, { s with trace := s.trace ++ [Event.printError 0 Site.destroyThreadAttribute
              (some "Could not destroy attribute as it is null.")] }) ∧
    (eventsSince s (destroyThread env NULL s).2).any Event.isOsCall = false ∧
    (eventsSince s (destroyThread env NULL s).2).any Event.isFree = false ∧
    (eventsSince s (destroyThreadAttribute env NULL s).2).any Event.isOsCall = false ∧
    (eventsSince s (destroyThreadAttribute env NULL s).2).any Event.isFree = false := by
  simp [destroyThread, destroyThreadAttribute, printError, State.log, eventsSince,
    Event.isOsCall, Event.isFree]

/-- Claim C10. If the `pthread_create` call succeeds and the
`pthread_attr_destroy` call that follows fails, `createThread` returns NULL,
having freed the handle block `s.brk + 2` exactly once, as its last call; the
`pthread_create` call on that block with the caller's function and argument
returned 0, the thread it started is among the started threads of the final
state, and `createThread` made no `pthread_join` call. -/
theorem createThread_teardown_failure (env : Env) (f arg : Ptr) (s : State)
    (hstart : (createThreadEvents env f arg s).any Event.isCreateOk = true)
    (hfail : (createThreadEvents env f arg s).any Event.isDestroyFailure = true) :
    (createThread env f arg s).1 = NULL ∧
    Event.malloc CType.pthread_t (s.brk + 2) ∈ createThreadEvents env f arg s ∧
    (createThreadEvents env f arg s).count (Event.free (s.brk + 2)) = 1 ∧
    (createThreadEvents env f arg s).getLast? = some (Event.free (s.brk + 2)) ∧
    Event.pthread_create (s.brk + 2) (s.brk + 1) f arg 0 (s.threads.length + 1) ∈
      createThreadEvents env f arg s ∧
    (createThread env f arg s).2.threads = s.threads ++ [(s.threads.length + 1, f, arg)] ∧
    (createThreadEvents env f arg s).any Event.isJoin = false ∧
    (createThread env f arg s).2.joined = s.joined := by
  rcases createThread_paths env f arg s with ⟨e, -, h⟩ | ⟨rc, hrc, -, h⟩ | ⟨rc, hrc, -, h⟩ |
    ⟨e, -, h⟩ | ⟨e, rc, hrc, -, h⟩ | ⟨rc, hrc, -, h⟩ | ⟨rc, rcd, hrc, hrcd, -, h⟩ |
    ⟨rcd, hrcd, -, h⟩ | ⟨-, h⟩ <;>
  first
  | (simp [createThreadEvents, eventsSince, h, Event.isCreateOk, Event.isDestroyFailure, *]
      at hstart hfail; done)
  | (clear hstart hfail
     simp [createThreadEvents, eventsSince, h, NULL, Event.isJoin, List.count,
       List.countP_cons, *])

/-- Claim C10 at a concrete input: with `pthread_attr_destroy` returning
`EINVAL` and everything else succeeding, `createThread(7, 9)` from the
initial state returns NULL although thread 1 running `7(9)` was started and
is not joined. -/
theorem createThread_teardown_failure_witness :
    (createThreadEvents Env.destroyFails 7 9 State.init).any Event.isCreateOk = true ∧
    (createThreadEvents Env.destroyFails 7 9 State.init).any Event.isDestroyFailure = true ∧
    (createThread Env.destroyFails 7 9 State.init).1 = NULL ∧
    (createThreadEvents Env.destroyFails 7 9 State.init).count (Event.free 2) = 1 ∧
    (createThread Env.destroyFails 7 9 State.init).2.threads = [(1, 7, 9)] ∧
    (createThread Env.destroyFails 7 9 State.init).2.joined = [] :=
  ⟨by decide, by decide,
   (createThread_teardown_failure Env.destroyFails 7 9 State.init (by decide) (by decide)).1,
   (createThread_teardown_failure Env.destroyFails 7 9 State.init (by decide)
      (by decide)).2.2.1,
   (createThread_teardown_failure Env.destroyFails 7 9 State.init (by decide)
      (by decide)).2.2.2.2.2.1,
   (createThread_teardown_failure Env.destroyFails 7 9 State.init (by decide)
      (by decide)).2.2.2.2.2.2.2⟩

end CPThread
